import Mathlib

/-!
Shallow embedding of the listing lifecycle and broadcast engine of the
tgram-availbot repository (src/handlers/admin.py, src/scheduler.py,
src/db.py, src/utils/formatting.py, src/utils/constants.py).

Modelling conventions:
  - instants and durations are integer seconds (`Int`);
  - every Telegram Channel Gateway call attempted by a handler is recorded,
    in order, in a `List ChanOp`; store mutations in a `List StoreOp`;
  - a fallible external send is a parameter `Option Nat` (`some id` when the
    send succeeded and returned that message id, `none` when it raised);
  - replies sent to the invoking user (reply_text / edit_message_text on the
    user's own prompt) are the operation's outcome value, not Gateway calls
    on listing messages, matching the spec's component split;
  - the rich per-listing renderer `generate_listing_message` (whose body
    parses JSON profile fields) is the spec's external Rendering
    collaborator; handlers take it as an opaque `render` argument since no
    claim depends on the text it produces.
-/

namespace TgramBot

/-- Embeds one row of the active_listings table (src/db.py, columns used by
src/handlers/admin.py and src/scheduler.py). -/
structure Listing where
  id : Nat
  user_id : Nat
  message_id : Nat
  expires_at : Int
  duration_hours : Int
  last_bump_at : Int
deriving DecidableEq, Repr

/-- Embeds the profile fields that the engine reads (src/utils/formatting.py
generate_list_message, src/handlers/admin.py post_listing_callback). -/
structure Profile where
  user_id : Nat
  name_subject : Option String
  allow_comments : Bool
  photo_file_ids : List String
  video_file_ids : List String
deriving DecidableEq, Repr

/-- Embeds the listing_data dict inserted by post_listing_callback
(src/handlers/admin.py lines 672-679); the store assigns the id. -/
structure ListingData where
  user_id : Nat
  message_id : Nat
  expires_at : Int
  duration_hours : Int
  last_bump_at : Int
deriving DecidableEq, Repr

/-- Embeds the update_data dict of bump_execute_callback
(src/handlers/admin.py lines 799-804). -/
structure ListingUpdate where
  message_id : Nat
  expires_at : Int
  duration_hours : Int
  last_bump_at : Int
deriving DecidableEq, Repr

/-- One attempted Channel Gateway call (telegram Bot send/edit/delete). -/
inductive ChanOp where
  | sendMsg (text : String)
  | sendMediaGroup (caption : String)
  | editMsg (message_id : Nat) (text : String)
  | delMsg (message_id : Nat)
deriving DecidableEq, Repr

/-- One mutation issued to the listing store (src/db.py). -/
inductive StoreOp where
  | saveListing (d : ListingData)
  | updateListing (id : Nat) (fields : ListingUpdate)
  | deleteListing (id : Nat)
deriving DecidableEq, Repr

/-- COOLDOWN_MINUTES from src/utils/constants.py. -/
def COOLDOWN_MINUTES : Int := 30

/-- BUMP_COOLDOWN_SECONDS from src/utils/constants.py. -/
def BUMP_COOLDOWN_SECONDS : Int := COOLDOWN_MINUTES * 60

/-- LISTING_DURATIONS from src/utils/constants.py. -/
def LISTING_DURATIONS : List (String × Int) := [("2h", 2), ("4h", 4), ("6h", 6)]

/-- Character-level worker for `pyReplace`; the fuel argument (initially
the string length) makes the recursion structural so that concrete
instances compute inside the kernel. -/
def replaceAux (pat rep : List Char) : Nat → List Char → List Char
  | 0, rest => rest
  | _ + 1, [] => []
  | fuel + 1, c :: rest =>
    if pat.isPrefixOf (c :: rest) then
      rep ++ replaceAux pat rep fuel (List.drop (pat.length - 1) rest)
    else
      c :: replaceAux pat rep fuel rest

/-- Embeds Python str.replace: replaces every non-overlapping occurrence of
`pat` by `rep`, scanning left to right (for the empty pattern, which the
source never uses, it returns the string unchanged). -/
def pyReplace (s pat rep : String) : String :=
  if pat.data = [] then s
  else ⟨replaceAux pat.data rep.data s.data.length s.data⟩

/-- Embeds escape_markdown_v2 (src/utils/formatting.py lines 133-136): the
chain of str.replace calls escaping MarkdownV2 metacharacters. -/
def escape_markdown_v2 (text : String) : String :=
  if text = "" then ""
  else
    [("_", "\\_"), ("*", "\\*"), ("[", "\\["), ("]", "\\]"), ("(", "\\("),
     (")", "\\)"), ("~", "\\~"), ("`", "\\`"), (">", "\\>"), ("#", "\\#"),
     ("+", "\\+"), ("-", "\\-"), ("=", "\\="), ("|", "\\|"),
     ("\x7b", "\\\x7b"), ("\x7d", "\\\x7d"), (".", "\\."),
     ("!", "\\!")].foldl (fun acc pr => pyReplace acc pr.1 pr.2) text

/-- Embeds the positive-remaining rendering of format_time_remaining
(src/utils/formatting.py lines 16-26); the argument is the truncated
total number of remaining seconds, a `Nat` because that branch only runs
when the difference is positive. -/
def render_remaining (total_seconds : Nat) : String :=
  let hours := total_seconds / 3600
  let minutes := total_seconds % 3600 / 60
  let seconds := total_seconds % 60
  if hours > 0 then
    toString hours ++ "h " ++ toString minutes ++ "m " ++ toString seconds ++ "s"
  else if minutes > 0 then
    toString minutes ++ "m " ++ toString seconds ++ "s"
  else
    toString seconds ++ "s"

/-- Embeds format_time_remaining (src/utils/formatting.py lines 5-28).
datetime.fromisoformat is Python stdlib, embedded as the abstract parser
`parse`; it is the only expression in the try block that can raise, and
the except clause maps any parse failure to "N/A". -/
def format_time_remaining (parse : String → Option Int) (now : Int)
    (expires_at : String) : String :=
  match parse (pyReplace expires_at "Z" "+00:00") with
  | none => "N/A"
  | some expiry_time =>
    if expiry_time - now ≤ 0 then "EXPIRED"
    else render_remaining (expiry_time - now).toNat

/-- Embeds one iteration body of the generate_list_message loop for a
listing whose owner has a profile (src/utils/formatting.py lines 152-165);
`i` is the 0-based enumerate index. -/
def listing_line (i : Nat) (l : Listing) (p : Profile) (chat_id : Int) : String :=
  let name_subject := escape_markdown_v2 (p.name_subject.getD ("Model " ++ toString l.user_id))
  let link_chat_id := pyReplace (toString chat_id) "-100" ""
  let message_link := "https://t.me/c/" ++ link_chat_id ++ "/" ++ toString l.message_id
  let comment_icon := if p.allow_comments then "💬" else ""
  toString (i + 1) ++ "\\. " ++ name_subject ++ " " ++ comment_icon ++
    " [View Post](" ++ message_link ++ ")\n"

/-- Embeds the enumerate loop of generate_list_message
(src/utils/formatting.py lines 145-165): listings whose owner has no
profile are skipped by continue, but the enumerate index advances for
every listing. -/
def list_entries (profiles : Nat → Option Profile) (chat_id : Int) :
    Nat → List Listing → String
  | _, [] => ""
  | i, l :: rest =>
    (match profiles l.user_id with
     | none => ""
     | some p => listing_line i l p chat_id) ++ list_entries profiles chat_id (i + 1) rest

/-- Embeds generate_list_message (src/utils/formatting.py lines 126-166);
the profiles dict is the lookup function `profiles`. -/
def generate_list_message (active_listings : List Listing)
    (profiles : Nat → Option Profile) (chat_id : Int) : String :=
  let count := active_listings.length
  let header := "*AVAILABLE NOW (" ++ toString count ++ " available)*\n\n"
  if count = 0 then
    header ++ "No models are currently available\\. Check back soon\\!"
  else
    header ++ list_entries profiles chat_id 0 active_listings

/-- Concatenation of a list of strings, used to state the loop of
generate_list_message as a per-position map. -/
def concatAll : List String → String
  | [] => ""
  | s :: rest => s ++ concatAll rest

/-- Outcome of bump_command (src/handlers/admin.py lines 686-737), i.e. the
reply sent back to the invoking user. `cooldownRejected time_left` carries
the remaining wait in seconds; the code renders it as
`time_left / 60` minutes and `time_left % 60` seconds in the reply. -/
inductive BumpCmdOutcome where
  | notAuthorized
  | wrongChat
  | noActiveListing
  | cooldownRejected (time_left : Int)
  | promptKeepOrReset (remaining_seconds : Int)
deriving DecidableEq, Repr

/-- Cooldown Policy: the cooldown check of bump_command
(src/handlers/admin.py lines 703-711) generalized over the cooldown
constant; returns (allowed, wait_remaining in seconds). The code instantiates
it with COOLDOWN_MINUTES * 60 and reports 0 wait when allowed. -/
def can_bump (last_bump_at now cooldown_seconds : Int) : Bool × Int :=
  let cooldown_end := last_bump_at + cooldown_seconds
  if now < cooldown_end then (false, cooldown_end - now) else (true, 0)

/-- Embeds bump_command (src/handlers/admin.py lines 686-737). Returns the
outcome and the Channel Gateway calls attempted on listing messages (none
in this handler: it only replies to the user and shows a prompt). On the
allowed path it computes the remaining seconds `expires_at - now` that the
keep-remaining callback will later reuse. -/
def bump_command (isAdmin inGroupChat : Bool) (listing : Option Listing)
    (now : Int) : BumpCmdOutcome × List ChanOp :=
  if !isAdmin then (.notAuthorized, [])
  else if !inGroupChat then (.wrongChat, [])
  else
    match listing with
    | none => (.noActiveListing, [])
    | some l =>
      let cooldown_end := l.last_bump_at + BUMP_COOLDOWN_SECONDS
      if now < cooldown_end then
        (.cooldownRejected (cooldown_end - now), [])
      else
        (.promptKeepOrReset (l.expires_at - now), [])

/-- Bump option chosen on the inline keyboard of bump_command: callback data
bump_keep, bump_reset_{h}, or anything else. -/
inductive BumpChoice where
  | keep
  | reset (hours : Int)
  | invalid
deriving DecidableEq, Repr

/-- Outcome of bump_execute_callback (src/handlers/admin.py lines 739-814):
the edit applied to the user's prompt, or the unhandled exception raised by
the un-wrapped send_message call. -/
inductive BumpExecOutcome where
  | errNoBumpData
  | errListingMismatch
  | invalidOption
  | errNoProfile
  | raisedSendFailure
  | success (new_expires_at : Int)
deriving DecidableEq, Repr

/-- Embeds bump_execute_callback (src/handlers/admin.py lines 739-814).
`bump_listing_id` and `bump_time_remaining` are the values stashed in
context.user_data by bump_command (0 is the .get default for the latter);
`render` is the external generate_listing_message collaborator;
`sendResult` is the fallible send_message (step 3), `some id` on success.
The old-message delete (step 1) is best-effort: its try/except swallows
failure, so it is recorded as an attempted call without a failure branch.
The record update (step 4) runs only after a successful send. -/
def bump_execute_callback (render : Profile → Int → String)
    (listing : Option Listing) (bump_listing_id : Option Nat)
    (bump_time_remaining : Int) (profile : Option Profile)
    (choice : BumpChoice) (now : Int) (sendResult : Option Nat) :
    BumpExecOutcome × List ChanOp × List StoreOp :=
  match bump_listing_id with
  | none => (.errNoBumpData, [], [])
  | some lid =>
    match listing with
    | none => (.errListingMismatch, [], [])
    | some l =>
      if l.id ≠ lid then (.errListingMismatch, [], [])
      else
        let delOld := [ChanOp.delMsg l.message_id]
        match choice with
        | .invalid => (.invalidOption, delOld, [])
        | .keep =>
          let new_expires_at := now + bump_time_remaining
          let duration_hours := bump_time_remaining / 3600
          match profile with
          | none => (.errNoProfile, delOld, [])
          | some p =>
            let message_text := render p new_expires_at
            let ops := delOld ++ [ChanOp.sendMsg message_text]
            match sendResult with
            | none => (.raisedSendFailure, ops, [])
            | some mid =>
              (.success new_expires_at, ops,
               [StoreOp.updateListing lid ⟨mid, new_expires_at, duration_hours, now⟩])
        | .reset h =>
          let new_expires_at := now + h * 3600
          let duration_hours := h
          match profile with
          | none => (.errNoProfile, delOld, [])
          | some p =>
            let message_text := render p new_expires_at
            let ops := delOld ++ [ChanOp.sendMsg message_text]
            match sendResult with
            | none => (.raisedSendFailure, ops, [])
            | some mid =>
              (.success new_expires_at, ops,
               [StoreOp.updateListing lid ⟨mid, new_expires_at, duration_hours, now⟩])

/-- Outcome of admin_available_command (src/handlers/admin.py lines
537-580): the reply shown to the invoking user. `promptDuration replaced`
is the duration keyboard; `replaced = true` when a prior listing was just
deleted and the user was told it has been replaced. -/
inductive AvailOutcome where
  | notAuthorized
  | wrongChat
  | noProfile
  | promptDuration (replaced : Bool)
deriving DecidableEq, Repr

/-- Embeds admin_available_command (src/handlers/admin.py lines 537-580),
the entry point of Create. When the owner already has an active listing it
deletes that listing's channel message (best-effort try/except) and its
store record itself, then prompts for a duration; there is no failure
branch for the duplicate case. -/
def admin_available_command (isAdmin inGroupChat : Bool)
    (profile : Option Profile) (existing_listing : Option Listing) :
    AvailOutcome × List ChanOp × List StoreOp :=
  if !isAdmin then (.notAuthorized, [], [])
  else if !inGroupChat then (.wrongChat, [], [])
  else
    match profile with
    | none => (.noProfile, [], [])
    | some _ =>
      match existing_listing with
      | none => (.promptDuration false, [], [])
      | some ex =>
        (.promptDuration true,
         [ChanOp.delMsg ex.message_id],
         [StoreOp.deleteListing ex.id])

/-- Outcome of post_listing_callback (src/handlers/admin.py lines 582-684). -/
inductive PostOutcome where
  | invalidDuration
  | errNoProfile
  | raisedSendFailure
  | success (expires_at : Int) (duration_hours : Int)
deriving DecidableEq, Repr

/-- Embeds post_listing_callback (src/handlers/admin.py lines 582-684),
the posting half of Create. `render` is the external
generate_listing_message collaborator. When the profile has media, the
media-group send is attempted first (`mediaGroupResult`); on its failure
the code falls back to a plain send_message (`sendMessageResult`), which is
not wrapped in try, so its failure raises and the record save (line 679)
never runs. The saved record's message_id is always the id returned by
whichever send succeeded. -/
def post_listing_callback (render : Profile → Int → String) (user_id : Nat)
    (callback_data : String) (profile : Option Profile) (now : Int)
    (mediaGroupResult : Option Nat) (sendMessageResult : Option Nat) :
    PostOutcome × List ChanOp × List StoreOp :=
  let duration_str := pyReplace callback_data "duration_" ""
  match LISTING_DURATIONS.lookup duration_str with
  | none => (.invalidDuration, [], [])
  | some duration_hours =>
    match profile with
    | none => (.errNoProfile, [], [])
    | some p =>
      let expires_at := now + duration_hours * 3600
      let message_text := render p expires_at
      if p.photo_file_ids ≠ [] ∨ p.video_file_ids ≠ [] then
        match mediaGroupResult with
        | some mid =>
          (.success expires_at duration_hours,
           [ChanOp.sendMediaGroup message_text],
           [StoreOp.saveListing ⟨user_id, mid, expires_at, duration_hours, now⟩])
        | none =>
          match sendMessageResult with
          | none =>
            (.raisedSendFailure,
             [ChanOp.sendMediaGroup message_text, ChanOp.sendMsg message_text], [])
          | some mid =>
            (.success expires_at duration_hours,
             [ChanOp.sendMediaGroup message_text, ChanOp.sendMsg message_text],
             [StoreOp.saveListing ⟨user_id, mid, expires_at, duration_hours, now⟩])
      else
        match sendMessageResult with
        | none => (.raisedSendFailure, [ChanOp.sendMsg message_text], [])
        | some mid =>
          (.success expires_at duration_hours,
           [ChanOp.sendMsg message_text],
           [StoreOp.saveListing ⟨user_id, mid, expires_at, duration_hours, now⟩])

/-- Embeds update_available_lists (src/scheduler.py lines 23-55), the
Broadcast Synchronizer: returns the Channel Gateway calls it attempts.
When there are no active listings it returns before touching the channel
(lines 30-32: "No active listings found. Skipping list update."); otherwise
it edits the pinned list message in place if the pinned pointer exists
(the edit is try/except-wrapped, so a failing edit is still an attempted
call), and does nothing if the pointer is absent. -/
def update_available_lists (active_listings : List Listing)
    (profiles : Nat → Option Profile) (pinned_msg : Option Nat)
    (chat_id : Int) : List ChanOp :=
  if active_listings.isEmpty then []
  else
    let list_content := generate_list_message active_listings profiles chat_id
    match pinned_msg with
    | some pmid => [ChanOp.editMsg pmid list_content]
    | none => []

/-- Embeds the for-loop of cleanup_expired_listings (src/scheduler.py lines
96-114): per expired listing, a best-effort channel delete followed by the
store delete; the Bool is the listings_expired flag. -/
def sweepLoop (now : Int) : List Listing → List ChanOp × List StoreOp × Bool
  | [] => ([], [], false)
  | l :: rest =>
    let r := sweepLoop now rest
    if l.expires_at ≤ now then
      (ChanOp.delMsg l.message_id :: r.1, StoreOp.deleteListing l.id :: r.2.1, true)
    else r

/-- Result of one expiry-sweep pass: the attempted channel calls (sweep
deletes followed by whatever the end-of-pass resync attempts), the store
deletes, and how many times the Broadcast Synchronizer was invoked. -/
structure SweepResult where
  chanOps : List ChanOp
  storeOps : List StoreOp
  resyncCalls : Nat
deriving DecidableEq, Repr

/-- Embeds cleanup_expired_listings (src/scheduler.py lines 88-118). After
the loop, update_available_lists is called once iff the listings_expired
flag is set; the resync re-reads the store, which then holds exactly the
listings that were not expired (store deletes are modelled as succeeding). -/
def cleanup_expired_listings (listings : List Listing) (now : Int)
    (profiles : Nat → Option Profile) (pinned_msg : Option Nat)
    (chat_id : Int) : SweepResult :=
  let r := sweepLoop now listings
  if r.2.2 then
    let remaining := listings.filter (fun l => decide (now < l.expires_at))
    { chanOps := r.1 ++ update_available_lists remaining profiles pinned_msg chat_id,
      storeOps := r.2.1,
      resyncCalls := 1 }
  else
    { chanOps := r.1, storeOps := r.2.1, resyncCalls := 0 }

/-- Embeds update_countdown_timers (src/scheduler.py lines 57-86). Returns
the ids of the listings whose loop iteration completed and the uncaught
exception that aborted the pass, if any. A listing without a profile is
skipped by continue (its iteration completes); for a listing with a
profile, line 72 evaluates db.generate_listing_message, but src/db.py
defines no such function, so the attribute lookup raises AttributeError
outside any try block and the rest of the pass never runs. -/
def update_countdown_timers (listings : List Listing)
    (profiles : Nat → Option Profile) : List Nat × Option String :=
  match listings with
  | [] => ([], none)
  | l :: rest =>
    match profiles l.user_id with
    | none =>
      let r := update_countdown_timers rest profiles
      (l.id :: r.1, r.2)
    | some _ => ([], some "AttributeError")

/-- Joint state of the channel and the store, for the Expire operation. -/
structure ExpireState where
  channelMsgs : List Nat
  storeListings : List Listing
deriving DecidableEq, Repr

/-- Result of one Expire: the new state, whether the channel delete found a
message to delete, and whether the store delete found a record to delete.
Neither flag being false is an error: the channel delete sits in try/except
(src/scheduler.py lines 104-108) and a False return of
db.delete_active_listing is only logged (lines 111-114). -/
structure ExpireOutcome where
  state : ExpireState
  messageDeleted : Bool
  recordDeleted : Bool
deriving DecidableEq, Repr

/-- Embeds Expire for one listing: the loop body of
cleanup_expired_listings (src/scheduler.py lines 103-114) acting on the
channel, together with db.delete_active_listing (src/db.py lines 100-107),
whose delete-by-id returns rows only when a matching record existed. -/
def expire_listing (s : ExpireState) (l : Listing) : ExpireOutcome :=
  { state :=
      { channelMsgs := s.channelMsgs.filter (fun m => m != l.message_id),
        storeListings := s.storeListings.filter (fun x => x.id != l.id) },
    messageDeleted := s.channelMsgs.contains l.message_id,
    recordDeleted := s.storeListings.any (fun x => x.id == l.id) }

/-- Opaque stand-in for the rendered listing text used by concrete witness
scenarios; the engine never inspects this text. -/
def render0 : Profile → Int → String := fun _ _ => "listing text"

/-- Concrete listing for the C1 scenario: user 2 bumped at instant 0. -/
def lC1 : Listing := ⟨7, 2, 10, 7200, 2, 0⟩

/-- Concrete listing for the C3 witness: bumped at 0, expires at 7200. -/
def lC3 : Listing := ⟨3, 5, 20, 7200, 2, 0⟩

/-- Concrete profile for the C3 witness. -/
def pC3 : Profile := ⟨5, none, false, [], []⟩

/-- Concrete profile with one photo, for the C6 witness media path. -/
def pC6 : Profile := ⟨1, some "M", false, ["photo1"], []⟩

/-- Concrete listing for the C6 witness bump path. -/
def lC6 : Listing := ⟨3, 1, 20, 7200, 2, 0⟩

-- Helper lemmas

/-- Appending "s" to any string never yields the literal "EXPIRED". -/
theorem append_s_ne_EXPIRED (a : String) : a ++ "s" ≠ "EXPIRED" := by
  intro h
  have hd : (a ++ "s").data = "EXPIRED".data := congrArg String.data h
  have h1 : (a ++ "s").data = a.data ++ ['s'] := by cases a; rfl
  rw [h1] at hd
  have h2 : (a.data ++ ['s']).getLast? = ("EXPIRED".data).getLast? := congrArg List.getLast? hd
  rw [List.getLast?_concat] at h2
  exact absurd h2 (by decide)

/-- The positive-remaining rendering always ends in the character s, hence
is never the string "EXPIRED". -/
theorem render_remaining_ne_EXPIRED (n : Nat) : render_remaining n ≠ "EXPIRED" := by
  unfold render_remaining
  dsimp only
  split
  · exact append_s_ne_EXPIRED _
  · split
    · exact append_s_ne_EXPIRED _
    · exact append_s_ne_EXPIRED _

/-- The sweep loop deletes exactly the expired listings, in order, and the
listings_expired flag is set iff at least one listing was expired. -/
theorem sweepLoop_eq (now : Int) (ls : List Listing) :
    sweepLoop now ls =
      ((ls.filter (fun l => decide (l.expires_at ≤ now))).map
         (fun l => ChanOp.delMsg l.message_id),
       (ls.filter (fun l => decide (l.expires_at ≤ now))).map
         (fun l => StoreOp.deleteListing l.id),
       !(ls.filter (fun l => decide (l.expires_at ≤ now))).isEmpty) := by
  induction ls with
  | nil => rfl
  | cons a t ih =>
    by_cases h : a.expires_at ≤ now
    · simp [sweepLoop, ih, List.filter_cons, h]
    · simp [sweepLoop, ih, List.filter_cons, h]

/-- Filtering twice with the same Boolean predicate equals filtering once. -/
theorem filter_self_idem {α : Type} (p : α → Bool) (xs : List α) :
    (xs.filter p).filter p = xs.filter p := by
  induction xs with
  | nil => rfl
  | cons a t ih =>
    by_cases h : p a
    · simp [List.filter_cons, h, ih]
    · simp [List.filter_cons, h, ih]

/-- After removing every element whose key equals k, no element with key k
is found any more. -/
theorem any_filter_bne {α : Type} (f : α → Nat) (k : Nat) (xs : List α) :
    ((xs.filter (fun x => f x != k)).any (fun x => f x == k)) = false := by
  induction xs with
  | nil => rfl
  | cons a t ih =>
    by_cases h : f a = k
    · simp [List.filter_cons, h, ih]
    · simp [List.filter_cons, h, ih]

/-- The index-threaded entry loop of generate_list_message equals the
per-position concatenation over the enumerated list. -/
theorem list_entries_eq (profiles : Nat → Option Profile) (chat : Int)
    (ls : List Listing) (i : Nat) :
    list_entries profiles chat i ls =
      concatAll ((ls.enumFrom i).map (fun il =>
        match profiles il.2.user_id with
        | none => ""
        | some p => listing_line il.1 il.2 p chat)) := by
  induction ls generalizing i with
  | nil => rfl
  | cons a t ih => simp [list_entries, List.enumFrom, concatAll, ih]

/-- Claim C1: the cooldown check permits a bump iff now - last_bump_at is
at least the cooldown (boundary allowed); when disallowed the remaining
wait is exactly cooldown - (now - last_bump_at), clamped at zero (and in
fact positive), the bump command replies with the cooldown rejection
carrying that wait, and attempts no Channel Gateway send, edit or delete. -/
theorem C1_cooldown_policy (last now cd : Int) (l : Listing) (n : Int) :
    ((can_bump last now cd).1 = true ↔ cd ≤ now - last) ∧
    ((can_bump last now cd).1 = false →
      (can_bump last now cd).2 = max 0 (cd - (now - last)) ∧
      0 < (can_bump last now cd).2) ∧
    (∀ w, can_bump l.last_bump_at n BUMP_COOLDOWN_SECONDS = (false, w) →
      bump_command true true (some l) n = (.cooldownRejected w, [])) := by
  refine ⟨?_, ?_, ?_⟩
  · unfold can_bump
    by_cases h : now < last + cd
    · simp [h]
      omega
    · simp [h]
      omega
  · unfold can_bump
    by_cases h : now < last + cd
    · simp [h]
      omega
    · simp [h]
  · intro w hw
    unfold can_bump at hw
    by_cases h : n < l.last_bump_at + BUMP_COOLDOWN_SECONDS
    · simp only [if_pos h, Prod.mk.injEq] at hw
      simp [bump_command, h, hw.2]
    · simp [if_neg h] at hw

/-- Witness for C1, at the spec scenario: last bump at 0, retry at 300 s
(5 min) with a 1800 s (30 min) cooldown is rejected with a 1500 s (25 min)
wait and no channel calls. -/
theorem C1_cooldown_policy_witness :
    (can_bump 0 300 1800).2 = max 0 (1800 - (300 - 0)) ∧
    bump_command true true (some lC1) 300 = (.cooldownRejected 1500, []) :=
  ⟨((C1_cooldown_policy 0 300 1800 lC1 300).2.1 (by decide)).1,
   (C1_cooldown_policy 0 300 1800 lC1 300).2.2 1500 (by decide)⟩

/-- Claim C2 counterexample: an owner (user 2) with an active listing
(id 7, message 10) calls Create; instead of failing with DuplicateActive
and leaving the prior listing alone, the command prompts for a duration
after itself deleting the old channel message and the old store record. -/
theorem C2_counterexample :
    (admin_available_command true true (some ⟨2, some "U2", false, [], []⟩)
        (some ⟨7, 2, 10, 7200, 2, 0⟩)).1 = AvailOutcome.promptDuration true ∧
    (admin_available_command true true (some ⟨2, some "U2", false, [], []⟩)
        (some ⟨7, 2, 10, 7200, 2, 0⟩)).2.1 = [ChanOp.delMsg 10] ∧
    (admin_available_command true true (some ⟨2, some "U2", false, [], []⟩)
        (some ⟨7, 2, 10, 7200, 2, 0⟩)).2.2 = [StoreOp.deleteListing 7] := by
  refine ⟨rfl, rfl, rfl⟩

/-- Claim C2 as amended: for every owner who already has an active listing,
Create does not fail; it itself deletes the prior listing's channel message
(best-effort) and store record, tells the owner the listing was replaced,
and proceeds to the duration prompt, so no second active listing results;
an owner with no prior listing gets the prompt with no deletions. -/
theorem C2_create_replaces_prior (p : Profile) (ex : Listing) :
    admin_available_command true true (some p) (some ex) =
      (.promptDuration true, [ChanOp.delMsg ex.message_id],
       [StoreOp.deleteListing ex.id]) ∧
    admin_available_command true true (some p) none =
      (.promptDuration false, [], []) := by
  exact ⟨rfl, rfl⟩

/-- Claim C9: format_time_remaining is total; it returns "N/A" when the
timestamp does not parse, returns "EXPIRED" exactly when the parsed expiry
is at or before now, and otherwise renders the remaining time from the
(necessarily non-negative) truncated difference. -/
theorem C9_format_time_remaining_total (parse : String → Option Int)
    (now : Int) (s : String) :
    (parse (pyReplace s "Z" "+00:00") = none →
      format_time_remaining parse now s = "N/A") ∧
    (∀ t, parse (pyReplace s "Z" "+00:00") = some t →
      ((format_time_remaining parse now s = "EXPIRED") ↔ t ≤ now) ∧
      (now < t →
        format_time_remaining parse now s = render_remaining (t - now).toNat)) := by
  constructor
  · intro h
    unfold format_time_remaining
    rw [h]
  · intro t ht
    unfold format_time_remaining
    rw [ht]
    dsimp only
    refine ⟨⟨?_, ?_⟩, ?_⟩
    · intro he
      by_contra hn
      push_neg at hn
      rw [if_neg (by omega)] at he
      exact render_remaining_ne_EXPIRED _ he
    · intro hle
      rw [if_pos (by omega)]
    · intro hlt
      rw [if_neg (by omega)]

/-- Witness for C9: a parser that reads instant 10 renders a 7-second
remainder at now = 3, and a failing parser yields "N/A". -/
theorem C9_format_time_remaining_witness :
    format_time_remaining (fun _ => some 10) 3 "2024-01-01T00:00:10Z" =
      render_remaining 7 ∧
    format_time_remaining (fun _ => none) 3 "garbage" = "N/A" :=
  ⟨((C9_format_time_remaining_total (fun _ => some 10) 3
      "2024-01-01T00:00:10Z").2 10 rfl).2 (by decide),
   (C9_format_time_remaining_total (fun _ => none) 3 "garbage").1 rfl⟩

/-- Claim C10: the summary's header counts every active listing, including
those whose owner has no profile; the body concatenates one entry per
original list position, contributing nothing for a profile-less owner, and
each printed entry is numbered by its original (enumerate) position, so
omissions leave gaps in the numbering. -/
theorem C10_list_message (listings : List Listing)
    (profiles : Nat → Option Profile) (chat : Int) :
    generate_list_message listings profiles chat =
      "*AVAILABLE NOW (" ++ toString listings.length ++ " available)*\n\n" ++
      (if listings.length = 0 then
        "No models are currently available\\. Check back soon\\!"
      else
        concatAll (listings.enum.map (fun il =>
          match profiles il.2.user_id with
          | none => ""
          | some p => listing_line il.1 il.2 p chat))) := by
  unfold generate_list_message
  by_cases h : listings.length = 0
  · simp [h]
  · simp [h, list_entries_eq, List.enum]

/-- Claim C3: a successful Bump with KeepRemaining reposts with the same
expiry instant, so expires_at - now is preserved across the operation (the
operation's clock reads are modelled as one instant now); a successful
Bump with ResetTo(d hours) sets the new expiry to now + d hours regardless
of the prior remaining time; in both modes the stored record's
last_bump_at is set to now. -/
theorem C3_bump_modes (render : Profile → Int → String) (l : Listing)
    (p : Profile) (now d : Int) (mid : Nat) :
    (∀ rem ops, bump_command true true (some l) now = (.promptKeepOrReset rem, ops) →
      bump_execute_callback render (some l) (some l.id) rem (some p) .keep now (some mid)
        = (.success (now + rem),
           [ChanOp.delMsg l.message_id, ChanOp.sendMsg (render p (now + rem))],
           [StoreOp.updateListing l.id ⟨mid, now + rem, rem / 3600, now⟩]) ∧
      now + rem = l.expires_at) ∧
    (∀ rem, bump_execute_callback render (some l) (some l.id) rem (some p)
        (.reset d) now (some mid)
      = (.success (now + d * 3600),
         [ChanOp.delMsg l.message_id, ChanOp.sendMsg (render p (now + d * 3600))],
         [StoreOp.updateListing l.id ⟨mid, now + d * 3600, d, now⟩])) := by
  constructor
  · intro rem ops h
    have hcd : ¬ now < l.last_bump_at + BUMP_COOLDOWN_SECONDS := by
      intro hc
      simp [bump_command, hc] at h
    simp only [bump_command, Bool.not_true, Bool.false_eq_true, if_false,
      if_neg hcd, Prod.mk.injEq] at h
    obtain ⟨h1, _⟩ := h
    have hrem : rem = l.expires_at - now := by
      cases h1
      rfl
    subst hrem
    constructor
    · simp [bump_execute_callback]
    · omega
  · intro rem
    simp [bump_execute_callback]

/-- Witness for C3: listing lC3 (bumped at 0, expires at 7200) bumped at
now = 1800 with KeepRemaining keeps expiry 7200; ResetTo(4h) from the same
prompt yields expiry 1800 + 14400. -/
theorem C3_bump_modes_witness :
    (bump_execute_callback render0 (some lC3) (some 3) 5400 (some pC3)
        .keep 1800 (some 21)
      = (.success 7200,
         [ChanOp.delMsg 20, ChanOp.sendMsg (render0 pC3 7200)],
         [StoreOp.updateListing 3 ⟨21, 7200, 1, 1800⟩]) ∧
     (1800 + 5400 : Int) = lC3.expires_at) ∧
    bump_execute_callback render0 (some lC3) (some 3) 5400 (some pC3)
        (.reset 4) 1800 (some 21)
      = (.success 16200,
         [ChanOp.delMsg 20, ChanOp.sendMsg (render0 pC3 16200)],
         [StoreOp.updateListing 3 ⟨21, 16200, 4, 1800⟩]) :=
  ⟨(C3_bump_modes render0 lC3 pC3 1800 4 21).1 5400 [] (by decide),
   (C3_bump_modes render0 lC3 pC3 1800 4 21).2 5400⟩

/-- Claim C4: an expiry-sweep pass invokes the Broadcast Synchronizer
exactly once when it expires at least one listing (never once per expired
listing) and zero times when it expires none. -/
theorem C4_single_resync (listings : List Listing) (now : Int)
    (profiles : Nat → Option Profile) (pinned : Option Nat) (chat : Int) :
    (cleanup_expired_listings listings now profiles pinned chat).resyncCalls =
      if (listings.filter (fun l => decide (l.expires_at ≤ now))).length = 0
      then 0 else 1 := by
  unfold cleanup_expired_listings
  rw [sweepLoop_eq]
  by_cases h : (listings.filter (fun l => decide (l.expires_at ≤ now))) = []
  · simp [h]
  · simp [h, List.isEmpty_iff, List.length_eq_zero]

/-- Claim C5 counterexample: the sweep at now = 200 expires the single
remaining listing (owner 1, message 10, expired at 100) while a pinned
pointer (message 55) exists; the pass deletes the listing's message but
attempts no edit of the pinned summary at all, because
update_available_lists returns early when no active listings remain, so
the pinned view is not updated to show the owner absent. -/
theorem C5_counterexample :
    (cleanup_expired_listings [⟨7, 1, 10, 100, 2, 0⟩] 200 (fun _ => none)
        (some 55) (-1001234)).chanOps = [ChanOp.delMsg 10] ∧
    ∀ mid txt, ChanOp.editMsg mid txt ∉
      (cleanup_expired_listings [⟨7, 1, 10, 100, 2, 0⟩] 200 (fun _ => none)
        (some 55) (-1001234)).chanOps := by
  refine ⟨rfl, ?_⟩
  intro mid txt h
  have e : (cleanup_expired_listings [⟨7, 1, 10, 100, 2, 0⟩] 200 (fun _ => none)
      (some 55) (-1001234)).chanOps = [ChanOp.delMsg 10] := rfl
  rw [e, List.mem_singleton] at h
  exact ChanOp.noConfusion h

/-- Claim C5 as amended: when a sweep pass expires at least one listing and
the pinned pointer exists, the triggered resync edits the pinned message
with the summary generated from exactly the listings that survived the
sweep, and every expired listing is absent from that surviving set —
provided at least one listing survives; when the pass expires the last
remaining listing, the resync returns without editing anything and the
pinned summary is left stale. -/
theorem C5_resync_shows_expired_absent (listings : List Listing) (now : Int)
    (profiles : Nat → Option Profile) (pmid : Nat) (chat : Int)
    (hexp : listings.filter (fun l => decide (l.expires_at ≤ now)) ≠ []) :
    (listings.filter (fun l => decide (now < l.expires_at)) ≠ [] →
      (cleanup_expired_listings listings now profiles (some pmid) chat).chanOps =
        (listings.filter (fun l => decide (l.expires_at ≤ now))).map
          (fun l => ChanOp.delMsg l.message_id)
        ++ [ChanOp.editMsg pmid
              (generate_list_message
                (listings.filter (fun l => decide (now < l.expires_at)))
                profiles chat)]) ∧
    (∀ l ∈ listings.filter (fun l => decide (l.expires_at ≤ now)),
        l ∉ listings.filter (fun l => decide (now < l.expires_at))) ∧
    (listings.filter (fun l => decide (now < l.expires_at)) = [] →
      ∀ mid txt, ChanOp.editMsg mid txt ∉
        (cleanup_expired_listings listings now profiles (some pmid) chat).chanOps) := by
  have hflag : (listings.filter (fun l => decide (l.expires_at ≤ now))).isEmpty = false := by
    cases hfe : listings.filter (fun l => decide (l.expires_at ≤ now)) with
    | nil => exact absurd hfe hexp
    | cons a t => rfl
  refine ⟨?_, ?_, ?_⟩
  · intro hrem
    have hremF : (listings.filter (fun l => decide (now < l.expires_at))).isEmpty = false := by
      cases hfe : listings.filter (fun l => decide (now < l.expires_at)) with
      | nil => exact absurd hfe hrem
      | cons a t => rfl
    unfold cleanup_expired_listings
    rw [sweepLoop_eq]
    simp [update_available_lists, hflag, hremF]
  · intro l hl hl2
    rw [List.mem_filter] at hl hl2
    have h1 := hl.2
    have h2 := hl2.2
    simp only [decide_eq_true_eq] at h1 h2
    omega
  · intro hrem mid txt hmem
    unfold cleanup_expired_listings at hmem
    rw [sweepLoop_eq] at hmem
    simp [update_available_lists, hflag, hrem, List.mem_map] at hmem

/-- Witness for C5 (amended): expiring listing id 7 (owner 1, message 10)
at now = 200 while listing id 8 (owner 2, message 11, expires 300)
survives produces the sweep delete followed by one pinned edit rendering
only the surviving listing. -/
theorem C5_resync_witness :
    (cleanup_expired_listings
        [⟨7, 1, 10, 100, 2, 0⟩, ⟨8, 2, 11, 300, 2, 0⟩] 200 (fun _ => none)
        (some 55) (-1001234)).chanOps =
      [ChanOp.delMsg 10,
       ChanOp.editMsg 55
         (generate_list_message
           ([⟨7, 1, 10, 100, 2, 0⟩, ⟨8, 2, 11, 300, 2, 0⟩].filter
             (fun l => decide ((200:Int) < l.expires_at)))
           (fun _ => none) (-1001234))] :=
  (C5_resync_shows_expired_absent
      [⟨7, 1, 10, 100, 2, 0⟩, ⟨8, 2, 11, 300, 2, 0⟩] 200 (fun _ => none)
      55 (-1001234) (by decide)).1 (by decide)

/-- Claim C6: Create and Bump write the listing record only after the new
channel message is confirmed sent. When every send raises, Create produces
no store record at all; any record Create does save carries the message id
returned by the send that succeeded (media group, or the plain send used
directly or as fallback), and any record update Bump performs carries the
id of the freshly sent message and stamps last_bump_at = now. -/
theorem C6_record_only_after_send (render : Profile → Int → String)
    (uid : Nat) (cb : String) (p : Option Profile) (now : Int)
    (mgr smr : Option Nat) (l : Option Listing) (blid : Option Nat)
    (rem : Int) (pb : Option Profile) (ch : BumpChoice) (m : Nat)
    (nowB : Int) :
    ((post_listing_callback render uid cb p now none none).2.2 = []) ∧
    (∀ ld, StoreOp.saveListing ld ∈
        (post_listing_callback render uid cb p now mgr smr).2.2 →
      mgr = some ld.message_id ∨ smr = some ld.message_id) ∧
    ((bump_execute_callback render l blid rem pb ch nowB none).2.2 = []) ∧
    (∀ lid upd, StoreOp.updateListing lid upd ∈
        (bump_execute_callback render l blid rem pb ch nowB (some m)).2.2 →
      upd.message_id = m ∧ upd.last_bump_at = nowB) := by
  refine ⟨?_, ?_, ?_, ?_⟩
  · cases hk : List.lookup (pyReplace cb "duration_" "") LISTING_DURATIONS with
    | none => simp [post_listing_callback, hk]
    | some dh =>
      cases p with
      | none => simp [post_listing_callback, hk]
      | some pp =>
        by_cases hm : pp.photo_file_ids ≠ [] ∨ pp.video_file_ids ≠ []
        · simp [post_listing_callback, hk, hm]
        · simp [post_listing_callback, hk, hm]
  · intro ld hld
    cases hk : List.lookup (pyReplace cb "duration_" "") LISTING_DURATIONS with
    | none => simp [post_listing_callback, hk] at hld
    | some dh =>
      cases p with
      | none => simp [post_listing_callback, hk] at hld
      | some pp =>
        by_cases hm : pp.photo_file_ids ≠ [] ∨ pp.video_file_ids ≠ []
        · cases mgr with
          | some mid =>
            simp [post_listing_callback, hk, hm] at hld
            left
            simp [hld]
          | none =>
            cases smr with
            | none => simp [post_listing_callback, hk, hm] at hld
            | some mid =>
              simp [post_listing_callback, hk, hm] at hld
              right
              simp [hld]
        · cases smr with
          | none => simp [post_listing_callback, hk, hm] at hld
          | some mid =>
            simp [post_listing_callback, hk, hm] at hld
            right
            simp [hld]
  · cases blid with
    | none => rfl
    | some lid =>
      cases l with
      | none => rfl
      | some ll =>
        by_cases hid : ll.id ≠ lid
        · simp [bump_execute_callback, hid]
        · cases ch with
          | invalid => simp [bump_execute_callback, hid]
          | keep =>
            cases pb with
            | none => simp [bump_execute_callback, hid]
            | some pp => simp [bump_execute_callback, hid]
          | reset h =>
            cases pb with
            | none => simp [bump_execute_callback, hid]
            | some pp => simp [bump_execute_callback, hid]
  · intro lid upd hupd
    cases blid with
    | none => simp [bump_execute_callback] at hupd
    | some blid2 =>
      cases l with
      | none => simp [bump_execute_callback] at hupd
      | some ll =>
        by_cases hid : ll.id ≠ blid2
        · simp [bump_execute_callback, hid] at hupd
        · cases ch with
          | invalid => simp [bump_execute_callback, hid] at hupd
          | keep =>
            cases pb with
            | none => simp [bump_execute_callback, hid] at hupd
            | some pp =>
              simp [bump_execute_callback, hid] at hupd
              obtain ⟨-, h2⟩ := hupd
              simp [h2]
          | reset h =>
            cases pb with
            | none => simp [bump_execute_callback, hid] at hupd
            | some pp =>
              simp [bump_execute_callback, hid] at hupd
              obtain ⟨-, h2⟩ := hupd
              simp [h2]

/-- Witness for C6: a Create whose sends all fail writes no record; a
successful media-group send (message 42) is what the saved record points
at; a Bump whose repost raises writes no update; a Bump whose repost
succeeds as message 99 at now = 5 stores exactly that id and stamps
last_bump_at = 5. -/
theorem C6_record_only_after_send_witness :
    (post_listing_callback render0 1 "duration_2h" (some pC6) 0 none none).2.2 = [] ∧
    ((some 42 : Option Nat) = some (42 : Nat) ∨ (none : Option Nat) = some (42 : Nat)) ∧
    (bump_execute_callback render0 (some lC6) (some 3) 100 (some pC6) .keep 5 none).2.2 = [] ∧
    ((99 : Nat) = 99 ∧ (5 : Int) = 5) := by
  have h := C6_record_only_after_send render0 1 "duration_2h" (some pC6) 0
    (some 42) none (some lC6) (some 3) 100 (some pC6) .keep 99 5
  exact ⟨h.1, h.2.1 ⟨1, 42, 7200, 2, 0⟩ (by decide), h.2.2.1,
         h.2.2.2 3 ⟨99, 105, 0, 5⟩ (by decide)⟩

/-- Claim C7, evaluated at the failing input: a countdown pass over two
active listings whose first owner (user 2) has a profile raises
AttributeError while rendering the first listing — src/scheduler.py line
72 calls db.generate_listing_message, which src/db.py does not define —
so no iteration completes and the second listing (id 9) is never reached;
by contrast, when every profile lookup fails, the loop's continue lets the
pass visit both listings. -/
theorem C7_countdown_pass_aborts :
    update_countdown_timers
        [⟨1, 2, 10, 3600, 2, 0⟩, ⟨9, 3, 11, 3600, 2, 0⟩]
        (fun uid => if uid = 2 then some ⟨2, some "A", false, [], []⟩ else none)
      = ([], some "AttributeError") ∧
    update_countdown_timers
        [⟨1, 2, 10, 3600, 2, 0⟩, ⟨9, 3, 11, 3600, 2, 0⟩]
        (fun _ => none)
      = ([1, 9], none) := by
  exact ⟨rfl, rfl⟩

/-- After removing every entry whose value equals k, a contains check for
k fails. -/
theorem contains_filter_bne (xs : List Nat) (k : Nat) :
    ((xs.filter (fun x => x != k)).contains k) = false := by
  induction xs with
  | nil => rfl
  | cons a t ih =>
    by_cases h : a = k
    · simp [List.filter_cons, h, ih]
    · simp [List.filter_cons, h, ih]
      omega

/-- Claim C8: Expire is idempotent — running Expire again on the very
state it produced returns that state unchanged, and the second run's
channel delete and store delete both find nothing to remove; neither is
an error, since the result type of expire_listing has no error outcome
(the channel delete failure is caught and the store delete's empty result
is only logged). -/
theorem C8_expire_idempotent (s : ExpireState) (l : Listing) :
    expire_listing (expire_listing s l).state l =
      { state := (expire_listing s l).state,
        messageDeleted := false, recordDeleted := false } := by
  unfold expire_listing
  dsimp only
  simp only [ExpireOutcome.mk.injEq, ExpireState.mk.injEq]
  refine ⟨⟨?_, ?_⟩, ?_, ?_⟩
  · exact filter_self_idem _ _
  · exact filter_self_idem _ _
  · exact contains_filter_bne _ _
  · exact any_filter_bne Listing.id l.id s.storeListings

end TgramBot
